import Mathlib

/-!
Shallow embedding of the scheduling and subprocess-orchestration engine of
`py_borg_back.py` (the borg backup daemon).  Python `datetime` values are
modelled as an integer count of minutes together with the timezone-awareness
flag (Python refuses to compare an offset-aware with an offset-naive
datetime); `timedelta(minutes=10)` is the integer `10`.  Python exceptions
that escape a function are modelled with `Except PyErr`; the external borg
subprocess is opaque, so each phase's exit status is a parameter of the
model.
-/

/-- Exceptions that the embedded Python code can raise or exit with. -/
inductive PyErr where
  | typeError
  | attributeError
  | systemExit
deriving DecidableEq, Repr

/-- A Python config value (TOML scalar / list), as far as the claims need it. -/
inductive PyVal where
  | str (s : String)
  | int (n : Int)
  | bool (b : Bool)
deriving DecidableEq, Repr

/-- `borg_path = "/usr/bin/borg"` (module-level constant). -/
def borg_path : String := "/usr/bin/borg"

/-- The configuration fields of one `Repo` instance that the orchestration
    code reads (`Repo._load_extract_config`).  `cron_interval = none` models
    the Python sentinel `False` ("unscheduled").  `ssh_key_file = none`
    models Python `None`. -/
structure RepoCfg where
  enabled : Bool
  prune : Bool
  compact : Bool
  dry_run : Bool
  cron_interval : Option String
  keep_daily : Nat
  keep_weekly : Nat
  keep_monthly : Nat
  keep_yearly : Nat
  files_include : List String
  files_exclude : List String
  hostname : String
  repo_url : String
  borg_passphrase : String
  ssh_key_file : Option String
deriving DecidableEq, Repr

/-- Command list built by `Repo.run_backup_create` (lines 279-300).
    `rootDebug` models `logging.getLogger().getEffectiveLevel() == logging.DEBUG`.
    Python `recreate and "recreate" or "create"` picks the subcommand. -/
def createCmd (r : RepoCfg) (rootDebug : Bool) (recreate : Bool) : List String :=
  [borg_path,
   if recreate then "recreate" else "create",
   "--filter", "AMEds",
   "--list", "--stats", "--show-rc",
   "--compression", "zstd",
   "--exclude-caches"]
  ++ (if r.dry_run then ["--dry-run"] else [])
  ++ (if rootDebug then ["--verbose"] else [])
  ++ r.files_exclude.flatMap (fun e => ["--exclude", e])
  ++ ["::" ++ r.hostname ++ "-{now}"]
  ++ r.files_include

/-- Command list built by `Repo.run_backup_prune` (lines 313-332). -/
def pruneCmd (r : RepoCfg) (rootDebug : Bool) : List String :=
  [borg_path, "prune", "--list",
   "--glob-archives", r.hostname ++ "-*",
   "--show-rc",
   "--keep-daily", toString r.keep_daily,
   "--keep-weekly", toString r.keep_weekly,
   "--keep-monthly", toString r.keep_monthly,
   "--keep-yearly", toString r.keep_yearly]
  ++ (if r.dry_run then ["--dry-run"] else [])
  ++ (if rootDebug then ["--verbose"] else [])

/-- Command list built by `Repo.run_backup_compact` (lines 345-352). -/
def compactCmd (r : RepoCfg) (rootDebug : Bool) : List String :=
  [borg_path, "compact"]
  ++ (if r.dry_run then ["--dry-run"] else [])
  ++ (if rootDebug then ["--verbose"] else [])

/-- One recorded subprocess invocation: the log label passed to
    `_run_async_subprocess` and the command token list. -/
abbrev Invocation := String × List String

/-- `Repo.run_backup_create` (lines 274-303): skips when the repo is
    disabled (`_not_enabled`), otherwise invokes the subprocess.  The
    external process's exit status is the parameter `rc`; the second
    component records the subprocess invocations performed. -/
def run_backup_create (r : RepoCfg) (rootDebug recreate : Bool) (rc : Int) :
    Int × List Invocation :=
  if r.enabled = false then (0, [])
  else (rc, [("create", createCmd r rootDebug recreate)])

/-- `Repo.run_backup_prune` (lines 305-335): skips when disabled or when
    the `prune` policy flag is off (contributing 0), otherwise invokes. -/
def run_backup_prune (r : RepoCfg) (rootDebug : Bool) (rc : Int) :
    Int × List Invocation :=
  if r.enabled = false then (0, [])
  else if r.prune = false then (0, [])
  else (rc, [("prune", pruneCmd r rootDebug)])

/-- `Repo.run_backup_compact` (lines 337-355): skips when disabled or when
    the `compact` policy flag is off, otherwise invokes. -/
def run_backup_compact (r : RepoCfg) (rootDebug : Bool) (rc : Int) :
    Int × List Invocation :=
  if r.enabled = false then (0, [])
  else if r.compact = false then (0, [])
  else (rc, [("compact", compactCmd r rootDebug)])

/-- `Repo.run_backup_now` (lines 255-266).  The global `should_exit` flag is
    read three times (before create, before prune, before compact); since
    the flag can flip between reads, the three observed values are the
    parameters `s0 s1 s2`.  `rcC rcP rcK` are the exit statuses of the
    create / prune / compact subprocesses when they run.  Returns the
    aggregate (the arithmetic sum the code returns) and the ordered list of
    subprocess invocations. -/
def run_backup_now (r : RepoCfg) (rootDebug recreate : Bool)
    (s0 s1 s2 : Bool) (rcC rcP rcK : Int) : Int × List Invocation :=
  if s0 then (0, [])
  else
    let c := run_backup_create r rootDebug recreate rcC
    if s1 then (c.1, c.2)
    else
      let p := run_backup_prune r rootDebug rcP
      if s2 then (c.1 + p.1, c.2 ++ p.2)
      else
        let k := run_backup_compact r rootDebug rcK
        (c.1 + p.1 + k.1, c.2 ++ p.2 ++ k.2)

/-- A Python `datetime`: minutes since the 1970 epoch, plus whether the
    value is timezone-aware (`tzinfo` set).  Python raises `TypeError`
    when ordering an offset-aware against an offset-naive datetime. -/
structure PyDatetime where
  minutes : Int
  aware : Bool
deriving DecidableEq, Repr

/-- Python `<` on datetimes: defined between two naive or two aware
    values, `TypeError` between an aware and a naive one. -/
def dtLt (a b : PyDatetime) : Except PyErr Bool :=
  if a.aware = b.aware then Except.ok (decide (a.minutes < b.minutes))
  else Except.error PyErr.typeError

/-- Adding a `timedelta` of `m` minutes preserves timezone-awareness. -/
def dtAddMinutes (a : PyDatetime) (m : Int) : PyDatetime :=
  ⟨a.minutes + m, a.aware⟩

/-- Line 30: `self.next_run_message_time = datetime(1970, 1, 1, tzinfo=timezone.utc)`
    — the epoch, and timezone-AWARE. -/
def initial_next_run_message_time : PyDatetime := ⟨0, true⟩

/-- Result of one call to `Repo.try_run_backup`: the returned value, whether
    `run_backup_now` was invoked (i.e. whether a backup run was started),
    whether the "not time to run yet" line was logged, and the value of
    `next_run_message_time` after the call. -/
structure TryRunOutcome where
  ret : Int
  ran : Bool
  logged : Bool
  newMsgTime : PyDatetime
deriving DecidableEq, Repr

/-- `Repo.try_run_backup` (lines 233-253).  `next_run` and `msgTime` are the
    instance attributes `self.next_run` and `self.next_run_message_time`;
    `now` is `datetime.now()` at the call (naive, like `self.next_run`
    computed from croniter over `datetime.now()`).  The guard on line 242 is
    the conjunction from the source, with Python's short-circuit `and`:
    `now < self.next_run and self.next_run_message_time + timedelta(minutes=10) < now`.
    Each `<` can raise `TypeError` (aware vs naive), which propagates out of
    the method.  When the guard fails the code falls through to
    `run_backup_now`, whose aggregate is the parameter `backupRet`. -/
def try_run_backup (r : RepoCfg) (next_run msgTime now : PyDatetime)
    (backupRet : Int) : Except PyErr TryRunOutcome :=
  if r.enabled = false then Except.ok ⟨0, false, false, msgTime⟩
  else if r.cron_interval = none then Except.ok ⟨0, false, false, msgTime⟩
  else
    match dtLt now next_run with
    | Except.error e => Except.error e
    | Except.ok false => Except.ok ⟨backupRet, true, false, msgTime⟩
    | Except.ok true =>
        match dtLt (dtAddMinutes msgTime 10) now with
        | Except.error e => Except.error e
        | Except.ok true => Except.ok ⟨0, false, true, now⟩
        | Except.ok false => Except.ok ⟨backupRet, true, false, msgTime⟩

/-- The successive program points inside `Repo._run_async_subprocess`
    (lines 174-231), in the order the statements execute on the success
    path:  before `create_subprocess_exec` (line 190); during
    `await asyncio.gather(read_stream ...)` (lines 201-209), while the
    external process is alive and its two pipes are being drained;
    after the assignment `self.current_subprocess = process` (line 211);
    after `await process.wait()` (line 212); and after the unconditional
    `self.current_subprocess = None` (line 230). -/
inductive RunPoint where
  | beforeSpawn
  | streamDrain
  | afterSetHandle
  | afterWait
  | ended
deriving DecidableEq, Repr

/-- Value of `self.current_subprocess` at each program point of a run whose
    spawned process handle is `pid`, read off the statement order of
    `_run_async_subprocess`: the assignment to `process` happens only on
    line 211, after the stream-draining `gather` has completed, and the
    handle is reset to `None` on line 230. -/
def current_subprocess_at (pid : Nat) : RunPoint → Option Nat
  | RunPoint.beforeSpawn => none
  | RunPoint.streamDrain => none
  | RunPoint.afterSetHandle => some pid
  | RunPoint.afterWait => some pid
  | RunPoint.ended => none

/-- Whether the external process is still running at each program point:
    it is spawned on line 190 and runs throughout the stream draining
    (the pipes reach end-of-file no earlier than process exit), and it has
    certainly exited once `process.wait()` returned. -/
def process_running_at : RunPoint → Bool
  | RunPoint.beforeSpawn => false
  | RunPoint.streamDrain => true
  | RunPoint.afterSetHandle => true
  | RunPoint.afterWait => false
  | RunPoint.ended => false

/-- Actions `Repo.stop_subprocess` can issue on the external process. -/
inductive ProcAction where
  | terminate (pid : Nat)
  | wait (pid : Nat)
deriving DecidableEq, Repr

/-- `Repo.stop_subprocess` (lines 268-272): if `self.current_subprocess`
    is not `None`, terminate it and wait for it; otherwise do nothing. -/
def stop_subprocess (handle : Option Nat) : List ProcAction :=
  match handle with
  | none => []
  | some pid => [ProcAction.terminate pid, ProcAction.wait pid]

/-- `Repo._create_borg_env` (lines 159-172): copies the ambient process
    environment and appends the borg-specific overrides.  Line 170 is
    `"ssh -oBatchMode=yes -i " + self.ssh_key_file`: when `ssh_key_file`
    is Python `None`, concatenating `str` with `None` raises `TypeError`. -/
def create_borg_env (base : List (String × String)) (passphrase repoUrl : String)
    (sshKeyFile : Option String) : Except PyErr (List (String × String)) :=
  match sshKeyFile with
  | none => Except.error PyErr.typeError
  | some key =>
      Except.ok (base ++
        [("BORG_PASSPHRASE", passphrase),
         ("BORG_RELOCATED_REPO_ACCESS_IS_OK", "no"),
         ("BORG_UNKNOWN_UNENCRYPTED_REPO_ACCESS_IS_OK", "no"),
         ("BORG_RSH", "ssh -oBatchMode=yes -i " ++ key),
         ("BORG_REPO", repoUrl)])

/-- Outcome of the `try` block of `_run_async_subprocess`: either the
    process was spawned, drained and waited for and exited with
    `returncode`, or some step inside the `try` raised (binary missing,
    permission denied, broken pipe, ...). -/
inductive SpawnOutcome where
  | exited (returncode : Int)
  | raised
deriving DecidableEq, Repr

/-- `Repo._run_async_subprocess` (lines 174-231), control flow only.
    `create_borg_env` is called on line 184, OUTSIDE the `try` block that
    starts on line 189, so an exception it raises propagates to the caller.
    Inside the `try`, `return_code` is initialised to 1 and any exception is
    caught by the `except` clause (lines 224-228), which logs and leaves
    `return_code = 1`; otherwise `return_code` becomes the process's exit
    status.  An `Except.ok` value is the `RunResult` returned to the
    caller; `Except.error` is an exception propagating out. -/
def run_async_subprocess (base : List (String × String))
    (passphrase repoUrl : String) (sshKeyFile : Option String)
    (outcome : SpawnOutcome) : Except PyErr Int :=
  match create_borg_env base passphrase repoUrl sshKeyFile with
  | Except.error e => Except.error e
  | Except.ok _ =>
      match outcome with
      | SpawnOutcome.exited rc => Except.ok rc
      | SpawnOutcome.raised => Except.ok 1

/-- The attributes of the `config_args` options object (a `mock.Mock` built
    in `main`): attribute name, and its value — `some none` means the
    attribute exists but holds Python `None` (e.g. `--log-level` omitted). -/
abbrev ConfigArgs := List (String × Option PyVal)

/-- Look up a key in a TOML table modelled as an association list. -/
def tomlGet (table : List (String × PyVal)) (key : String) : Option PyVal :=
  table.lookup key

/-- Apply the optional validator the way both `_load_config_key` variants
    do (lines 144-150 and 478-481): a failed validation is `sys.exit(1)`. -/
def applyValidator (validator : Option (PyVal → Bool)) (v : PyVal) :
    Except PyErr PyVal :=
  match validator with
  | none => Except.ok v
  | some f => if f v then Except.ok v else Except.error PyErr.systemExit

/-- `Repo._load_config_key` (lines 116-151).  `repo_config` is
    `config["repo"][self.name]`, `general_config` is `config["repo_general"]`,
    `defaults` is the built-in `repo_general_defaults` table, `defaultArg`
    the per-call `default` parameter (`none` = Python `None`, and line 135
    tests `default is not None`, so a `None` default gives no fallback).
    Line 123 reads
    `config_args is not None and hasattr(config_args, key) and getattr(self.config_args, key) is not None`:
    the third conjunct accesses `self.config_args`, an attribute `Repo`
    never defines, so whenever `config_args` is passed and has the
    attribute `key`, the call raises `AttributeError`. -/
def repo_load_config_key (repo_config general_config defaults : List (String × PyVal))
    (key : String) (validator : Option (PyVal → Bool))
    (defaultArg : Option PyVal) (config_args : Option ConfigArgs) :
    Except PyErr PyVal :=
  match (match config_args with
         | some attrs =>
             match attrs.lookup key with
             | some _ => Except.error PyErr.attributeError
             | none => Except.ok (tomlGet repo_config key)
         | none => Except.ok (tomlGet repo_config key) :
           Except PyErr (Option PyVal)) with
  | Except.error e => Except.error e
  | Except.ok fromRepo =>
      match fromRepo with
      | some v => applyValidator validator v
      | none =>
          match tomlGet general_config key with
          | some v => applyValidator validator v
          | none =>
              match tomlGet defaults key with
              | some v => applyValidator validator v
              | none =>
                  match defaultArg with
                  | some d => applyValidator validator d
                  | none => Except.error PyErr.systemExit

/-- `BackupManager._load_config_key` (lines 458-482).  Here
    `self.config_args` IS defined (set in `__init__`), so the command-line
    branch works: it is taken when the attribute exists and its value is
    not `None`.  There is no per-repository table at manager level. -/
def manager_load_config_key (general_config defaults : List (String × PyVal))
    (key : String) (validator : Option (PyVal → Bool))
    (defaultArg : Option PyVal) (config_args : ConfigArgs) :
    Except PyErr PyVal :=
  match config_args.lookup key with
  | some (some v) => applyValidator validator v
  | _ =>
      match tomlGet general_config key with
      | some v => applyValidator validator v
      | none =>
          match tomlGet defaults key with
          | some v => applyValidator validator v
          | none =>
              match defaultArg with
              | some d => applyValidator validator d
              | none => Except.error PyErr.systemExit

/-- What `BackupManager.break_locks` needs of one `Repo`: its name and its
    `enabled` flag (`Repo.break_locks` itself does not check enablement). -/
structure ManagedRepo where
  name : String
  enabled : Bool
deriving DecidableEq, Repr

/-- `BackupManager.break_locks` (lines 431-434):
    `for repo in self.repos: if repo.enabled: await repo.break_locks()`.
    Repositories are visited in configuration-file order and each
    `break_locks` is awaited before the next; the result lists, in order,
    the names of the repositories whose `break_locks` was invoked. -/
def manager_break_locks : List ManagedRepo → List String
  | [] => []
  | r :: rest =>
      if r.enabled then r.name :: manager_break_locks rest
      else manager_break_locks rest

/-- Command list built by `Repo.break_locks` (lines 366-371). -/
def breakLockCmd (rootDebug : Bool) : List String :=
  [borg_path, "break-lock"] ++ (if rootDebug then ["--verbose"] else [])

/-- A concrete enabled repository used to instantiate the theorems:
    `files_include=["/data"]`, `hostname="host1"`, no excludes, dry-run
    off, both prune and compact policy flags on, a scheduled cron string. -/
def demoRepo : RepoCfg :=
  { enabled := true, prune := true, compact := true, dry_run := false,
    cron_interval := some "0 0 * * *", keep_daily := 7, keep_weekly := 4,
    keep_monthly := 2, keep_yearly := 1, files_include := ["/data"],
    files_exclude := [], hostname := "host1",
    repo_url := "ssh://u@backup.example/./repo", borg_passphrase := "pw",
    ssh_key_file := some "/keys/id_ed25519" }

/-- Claim C1 (code_bug evidence).  The claim says every call of
    `try_run_backup` strictly before the due time starts no subprocess,
    returns the neutral result 0, and logs the throttled "not due yet"
    message at most once per 10 minutes.  In the code,
    `next_run_message_time` starts as the timezone-AWARE
    `datetime(1970, 1, 1, tzinfo=timezone.utc)` while `now` and `next_run`
    are naive, so on every pre-due call the line-242 guard's first conjunct
    `now < next_run` is true and its second conjunct then compares aware
    with naive and raises TypeError, which propagates out of the method
    (and line 246, the only reassignment of `next_run_message_time`, is
    unreachable, so this never heals): here a call at `now = 0` with
    `next_run = 100` errors instead of returning 0.  At the due time the
    first conjunct is false, Python's `and` short-circuits past the aware
    comparison, and the backup runs — the method only ever returns on due
    calls. -/
theorem C1_pre_due_call_raises_type_error :
    try_run_backup demoRepo ⟨100, false⟩ initial_next_run_message_time ⟨0, false⟩ 7
      = Except.error PyErr.typeError
    ∧ (0 : Int) < 100
    ∧ try_run_backup demoRepo ⟨100, false⟩ initial_next_run_message_time
        ⟨100, false⟩ 7
      = Except.ok ⟨7, true, false, initial_next_run_message_time⟩ :=
  ⟨rfl, by decide, rfl⟩

/-- Claim C2 (code_bug evidence).  The claim says `current_subprocess` is
    set when a run starts, so `stop_subprocess` invoked at any point while
    the external process runs finds a non-empty handle.  In the code the
    assignment `self.current_subprocess = process` only executes after the
    stream-draining `gather` completes, i.e. after both pipes reach
    end-of-file; during the whole draining phase the process is running but
    the handle is still `None`, and `stop_subprocess` called then issues no
    termination.  The handle is indeed `None` again once the run ends. -/
theorem C2_handle_none_while_running :
    process_running_at RunPoint.streamDrain = true
    ∧ current_subprocess_at 42 RunPoint.streamDrain = none
    ∧ stop_subprocess (current_subprocess_at 42 RunPoint.streamDrain) = []
    ∧ current_subprocess_at 42 RunPoint.ended = none := by
  decide

/-- Claim C3 (code_bug evidence).  The claim says every invocation of the
    subprocess runner — including with `ssh_key_file = None` — returns an
    integer RunResult and never propagates an exception.  `_create_borg_env`
    concatenates a string with `ssh_key_file` (TypeError on `None`) and is
    called BEFORE the `try` block of `_run_async_subprocess`, so that
    exception propagates to the caller.  With a configured key the claim's
    behaviour holds: a spawn/communication failure caught by the `try`
    yields the non-zero result 1, and a normal exit yields its status. -/
theorem C3_none_key_propagates_exception :
    run_async_subprocess [] "pw" "url" none (SpawnOutcome.exited 0)
      = Except.error PyErr.typeError
    ∧ run_async_subprocess [] "pw" "url" (some "/keys/id") SpawnOutcome.raised
      = Except.ok 1
    ∧ run_async_subprocess [] "pw" "url" (some "/keys/id") (SpawnOutcome.exited 2)
      = Except.ok 2 :=
  ⟨rfl, rfl, rfl⟩

/-- Claim C4 (code_bug evidence).  The claim states the resolution order
    CLI override > per-repo > global table > built-in default > per-call
    fallback, hard failure only when nothing applies.  In
    `Repo._load_config_key` the CLI branch reads `self.config_args`, an
    attribute that `Repo` never defines, so whenever the options object is
    passed and has the requested attribute the call raises
    `AttributeError` instead of returning the CLI value; the same input on
    `BackupManager._load_config_key` (where `self.config_args` exists)
    returns the CLI value.  The remaining tiers of the repo-level chain do
    follow the claimed order. -/
theorem C4_cli_override_crashes :
    repo_load_config_key [] [] [] "log_level" none none
        (some [("log_level", some (PyVal.str "DEBUG"))])
      = Except.error PyErr.attributeError
    ∧ manager_load_config_key [] [] "log_level" none none
        [("log_level", some (PyVal.str "DEBUG"))]
      = Except.ok (PyVal.str "DEBUG")
    ∧ repo_load_config_key [("keep_daily", PyVal.int 3)]
        [("keep_daily", PyVal.int 7)] [("keep_daily", PyVal.int 9)]
        "keep_daily" none none none = Except.ok (PyVal.int 3)
    ∧ repo_load_config_key [] [("keep_daily", PyVal.int 7)]
        [("keep_daily", PyVal.int 9)] "keep_daily" none none none
      = Except.ok (PyVal.int 7)
    ∧ repo_load_config_key [] [] [("keep_daily", PyVal.int 9)]
        "keep_daily" none none none = Except.ok (PyVal.int 9)
    ∧ repo_load_config_key [] [] [] "ssh_key_file" none
        (some (PyVal.str "/k")) none = Except.ok (PyVal.str "/k")
    ∧ repo_load_config_key [] [] [] "ssh_key_file" none none none
      = Except.error PyErr.systemExit :=
  ⟨rfl, rfl, rfl, rfl, rfl, rfl, rfl⟩

/-- Claim C5 (counterexample).  The claim says `break_locks` is invoked
    on every configured repository regardless of the enabled flag; with
    repositories `r1` (enabled) and `r2` (disabled), the manager invokes
    it only on `r1` — `r2` is skipped by the `if repo.enabled` filter. -/
theorem C5_disabled_repo_skipped :
    manager_break_locks [⟨"r1", true⟩, ⟨"r2", false⟩] = ["r1"]
    ∧ "r2" ∉ manager_break_locks [⟨"r1", true⟩, ⟨"r2", false⟩] := by
  decide

/-- Claim C5 (amended).  `BackupManager.break_locks` invokes the
    lock-release operation on exactly the ENABLED repositories, in
    configuration-file order, awaiting each before starting the next;
    disabled repositories are skipped. -/
theorem C5_break_locks_enabled_in_order (repos : List ManagedRepo) :
    manager_break_locks repos
      = (repos.filter (fun r => r.enabled)).map (fun r => r.name) := by
  induction repos with
  | nil => rfl
  | cons r rest ih =>
      by_cases h : r.enabled = true <;>
        simp [manager_break_locks, List.filter_cons, h, ih]

/-- Claim C6.  For an enabled repository, if the shared shutdown flag is
    observed set between create and prune (`s1 = true` after `s0 = false`),
    `run_backup_now` performs only the create invocation and returns
    exactly the create result; and when the flag is observed set between
    prune and compact, the compact phase never starts and the returned
    aggregate is the partial sum of the completed phases. -/
theorem C6_cancel_between_phases (r : RepoCfg) (dbg rec s2 : Bool)
    (rcC rcP rcK : Int) (h : r.enabled = true) :
    run_backup_now r dbg rec false true s2 rcC rcP rcK
      = (rcC, [("create", createCmd r dbg rec)])
    ∧ (run_backup_now r dbg rec false false true rcC rcP rcK).1
      = rcC + (run_backup_prune r dbg rcP).1
    ∧ "compact" ∉ (run_backup_now r dbg rec false false true rcC rcP rcK).2.map
        Prod.fst := by
  by_cases hp : r.prune = true <;>
    simp [run_backup_now, run_backup_create, run_backup_prune,
      run_backup_compact, h, hp]

/-- Witness for claim C6 at a concrete enabled repository and concrete
    phase results. -/
theorem C6_cancel_between_phases_witness :
    run_backup_now demoRepo false false false true false 4 5 6
      = (4, [("create", createCmd demoRepo false false)])
    ∧ (run_backup_now demoRepo false false false false true 4 5 6).1
      = 4 + (run_backup_prune demoRepo false 5).1
    ∧ "compact" ∉ (run_backup_now demoRepo false false false false true 4 5 6).2.map
        Prod.fst :=
  C6_cancel_between_phases demoRepo false false false 4 5 6 rfl

/-- Claim C7.  In every execution of `run_backup_now` the sequence of
    subprocess labels is a sublist of [create, prune, compact] — so a
    phase's start never precedes an earlier phase's start — and prune
    (resp. compact) starts only if the repository is enabled, its policy
    flag is on, and shutdown has not been observed at any earlier
    inter-phase check. -/
theorem C7_phase_ordering (r : RepoCfg) (dbg rec s0 s1 s2 : Bool)
    (rcC rcP rcK : Int) :
    List.Sublist
        ((run_backup_now r dbg rec s0 s1 s2 rcC rcP rcK).2.map Prod.fst)
        ["create", "prune", "compact"]
    ∧ ("prune" ∈ (run_backup_now r dbg rec s0 s1 s2 rcC rcP rcK).2.map Prod.fst →
        r.enabled = true ∧ r.prune = true ∧ s0 = false ∧ s1 = false)
    ∧ ("compact" ∈ (run_backup_now r dbg rec s0 s1 s2 rcC rcP rcK).2.map Prod.fst →
        r.enabled = true ∧ r.compact = true ∧ s0 = false ∧ s1 = false
          ∧ s2 = false) := by
  cases hs0 : s0 <;> cases hs1 : s1 <;> cases hs2 : s2 <;>
    cases hen : r.enabled <;> cases hpr : r.prune <;> cases hco : r.compact <;>
      simp [run_backup_now, run_backup_create, run_backup_prune,
        run_backup_compact, hen, hpr, hco]

/-- Witness for claim C7 at a concrete repository and flag assignment. -/
theorem C7_phase_ordering_witness :
    List.Sublist
        ((run_backup_now demoRepo false false false false false 1 2 3).2.map
          Prod.fst)
        ["create", "prune", "compact"]
    ∧ ("prune" ∈ (run_backup_now demoRepo false false false false false 1 2 3).2.map
          Prod.fst →
        demoRepo.enabled = true ∧ demoRepo.prune = true ∧ false = false
          ∧ false = false)
    ∧ ("compact" ∈ (run_backup_now demoRepo false false false false false 1 2 3).2.map
          Prod.fst →
        demoRepo.enabled = true ∧ demoRepo.compact = true ∧ false = false
          ∧ false = false ∧ false = false) :=
  C7_phase_ordering demoRepo false false false false false 1 2 3

/-- Claim C8.  For an enabled repository with the prune policy off and the
    compact policy on, and no shutdown observed at any check,
    `run_backup_now` performs exactly the create and compact invocations in
    that order, the skipped prune phase contributes 0, and the aggregate is
    the create result plus the compact result. -/
theorem C8_prune_skipped_two_runs (r : RepoCfg) (dbg rec : Bool)
    (rcC rcP rcK : Int) (hen : r.enabled = true) (hpr : r.prune = false)
    (hco : r.compact = true) :
    run_backup_now r dbg rec false false false rcC rcP rcK
      = (rcC + rcK,
         [("create", createCmd r dbg rec), ("compact", compactCmd r dbg)]) := by
  simp [run_backup_now, run_backup_create, run_backup_prune,
    run_backup_compact, hen, hpr, hco]

/-- A copy of the demo repository with the prune policy flag off. -/
def demoRepoNoPrune : RepoCfg := { demoRepo with prune := false }

/-- Witness for claim C8 at a concrete repository with prune off. -/
theorem C8_prune_skipped_two_runs_witness :
    run_backup_now demoRepoNoPrune false false false false false 3 5 9
      = (3 + 9,
         [("create", createCmd demoRepoNoPrune false false),
          ("compact", compactCmd demoRepoNoPrune false)]) :=
  C8_prune_skipped_two_runs demoRepoNoPrune false false 3 5 9 rfl rfl rfl

/-- Claim C9.  For the repository with `files_include = ["/data"]`,
    `hostname = "host1"`, no excludes, dry-run off and the process-wide
    log level not DEBUG, the constructed create command contains the
    token "create", the literal archive pattern "::host1-{now}" and the
    path "/data", and contains neither "--dry-run" nor "--verbose". -/
theorem C9_create_cmd_tokens :
    "create" ∈ createCmd demoRepo false false
    ∧ "::host1-{now}" ∈ createCmd demoRepo false false
    ∧ "/data" ∈ createCmd demoRepo false false
    ∧ "--dry-run" ∉ createCmd demoRepo false false
    ∧ "--verbose" ∉ createCmd demoRepo false false := by
  decide

/-- Claim C10.  The aggregate returned by `run_backup_now` is an arithmetic
    sum, so phase results that are not all zero (here create exits with the
    negative status -15 of a terminated process and prune with +15) can sum
    to the aggregate 0 even though all three phases ran: an aggregate of 0
    does not imply every executed phase succeeded. -/
theorem C10_zero_aggregate_not_all_success :
    (run_backup_now demoRepo false false false false false (-15) 15 0).1 = 0
    ∧ (run_backup_now demoRepo false false false false false (-15) 15 0).2.map
        Prod.fst = ["create", "prune", "compact"]
    ∧ ((-15 : Int) ≠ 0) := by
  decide
